import Mathlib

/-
Shallow embedding of the LazyLoad class (src/lazyload.js, the exported
variant: `config`, `loadImage`, `#renderImage`, `loadVideo`, `#renderVideo`,
`executeFn`, `#handleFunctionExecution`, `destroy`, `checkValidDOMElement`,
`#checkValidCSSSelector`).

JavaScript values that flow into the public operations are modelled by the
inductive `JSValue`; JS numbers are modelled as rationals.  The DOM is a
store of elements indexed by natural-number ids, together with the selector
resolution collaborator (`queryAll` for `document.querySelectorAll`, in
document order, and `sub` for `elem.querySelector`).  Thrown errors are
modelled by `LLError`, classified by the taxonomy the error messages follow:
configuration failures, selector failures, type failures, and
null/undefined-dereference failures (e.g. `undefined.dataset`,
`null.setAttribute`).  A thrown error aborts the operation but keeps every
mutation already performed, as in JS.

The IntersectionObserver collaborator is modelled by its contract: it holds
a callback and the set of currently observed element ids; a visibility
transition for an element is delivered to the callback only while that
element is observed (`deliverTransition`).
-/

namespace LazyLoad

/-- A JavaScript value, as far as the public operations inspect one. -/
inductive JSValue where
  | vnull
  | vundef
  | vnum (q : ℚ)
  | vstr (s : String)
  | vbool (b : Bool)
  | velem (id : Nat)
  | varr (xs : List JSValue)
  | vfun
deriving Repr

/-- Error classification for the `throw new Error(...)` sites and the
implicit runtime failures. -/
inductive LLError where
  | configError
  | selectorError
  | typeError
  | nullDeref
deriving Repr, DecidableEq

/-- A DOM element: its two dataset slots (`dataset.imageUrl`,
`dataset.videoUrl`), its `src` property, and its attribute list. -/
structure Element where
  imageUrl : Option String
  videoUrl : Option String
  src : Option String
  attrs : List (String × String)
deriving Repr, DecidableEq

/-- The document: an element store plus the selector-resolution
collaborator.  `queryAll s` is `document.querySelectorAll(s)` in document
order (a selector the resolution mechanism cannot use resolves to no
elements); `sub e s` is element `e`'s `querySelector(s)`. -/
structure DOM where
  elems : Nat → Element
  queryAll : String → List Nat
  sub : Nat → String → Option Nat

/-- The stored `#options` object: `{root, rootMargin, threshold}`. -/
structure ObserverOptions where
  root : Option Nat
  rootMargin : String
  threshold : ℚ
deriving Repr, DecidableEq

/-- The three reveal callbacks a batch operation can install:
`#renderImage(srcTarget, attr)`, `#renderVideo(srcTarget, attr)`, and
`#handleFunctionExecution(exeFn)` (the function itself is abstracted; its
invocations are counted). -/
inductive CB where
  | image (srcTarget atr : Option String)
  | video (srcTarget atr : Option String)
  | exec
deriving Repr, DecidableEq

/-- An IntersectionObserver instance: its callback and the set of element
ids it currently observes. -/
structure Observer where
  cb : CB
  observed : List Nat
deriving Repr, DecidableEq

/-- The whole mutable state: the document, the stored `#options`, the
current `#observer` (null before any batch operation), and the number of
times an `exeFn` has been invoked. -/
structure World where
  dom : DOM
  options : ObserverOptions
  observer : Option Observer
  fnCalls : Nat

/-- The state a reveal callback acts on: the document, the observer's
observed set (through `observer.unobserve`), and the `exeFn` call count. -/
structure CBState where
  dom : DOM
  observed : List Nat
  fnCalls : Nat

/-- One IntersectionObserverEntry, restricted to the fields the callbacks
read. -/
structure Entry where
  target : Nat
  isIntersecting : Bool
deriving Repr, DecidableEq

/-- JS destructuring default: `undefined` is replaced by the default. -/
def jsDefault (v d : JSValue) : JSValue :=
  match v with
  | .vundef => d
  | _ => v

/-- `v === null`. -/
def jsIsNull : JSValue → Bool
  | .vnull => true
  | _ => false

/-- `v !== 0` is the negation of this: strict equality with the number 0. -/
def jsEqZero : JSValue → Bool
  | .vnum q => decide (q = 0)
  | _ => false

/-- `typeof v === "string"` together with the string itself. -/
def strVal : JSValue → Option String
  | .vstr s => some s
  | _ => none

/-- `typeof v === "function"`. -/
def isFun : JSValue → Bool
  | .vfun => true
  | _ => false

/-- JS string truthiness on an optional string: `undefined`/`null` and the
empty string are falsy (the `x || null` / `if (x)` idiom). -/
def truthyStr : Option String → Option String
  | some s => if s = "" then none else some s
  | none => none

/-- The template literal interpolation of a number followed by "px". -/
def pxString (q : ℚ) : String := toString q ++ "px"

/-- `checkValidDOMElement(element)`: truthy, `instanceof Element`, and
`nodeType === 1` — element references satisfy all three, nothing else does. -/
def checkValidDOMElement : JSValue → Bool
  | .velem _ => true
  | _ => false

/-- `#checkValidCSSSelector(selector)`: true iff
`document.querySelector(selector)` is non-null, i.e. the selector resolves
to at least one element. -/
def checkValidCSSSelector (dom : DOM) (s : String) : Bool :=
  ((dom.queryAll s).head?).isSome

/-- Apply an update to a single element of the store. -/
def updElem (d : DOM) (e : Nat) (f : Element → Element) : DOM :=
  { d with elems := fun n => if n = e then f (d.elems n) else d.elems n }

/-- `elements[i].dataset.imageUrl = s`. -/
def setImageUrlD (d : DOM) (e : Nat) (s : String) : DOM :=
  updElem d e (fun x => { x with imageUrl := some s })

/-- `elements[i].dataset.videoUrl = s`. -/
def setVideoUrlD (d : DOM) (e : Nat) (s : String) : DOM :=
  updElem d e (fun x => { x with videoUrl := some s })

/-- `elem.src = path`. -/
def setSrcD (d : DOM) (e : Nat) (v : String) : DOM :=
  updElem d e (fun x => { x with src := some v })

/-- `elem.setAttribute(a, v)`. -/
def setAttrD (d : DOM) (e : Nat) (a v : String) : DOM :=
  updElem d e (fun x =>
    { x with attrs := (a, v) :: x.attrs.filter (fun p => p.1 != a) })

/-- `attr ? target.setAttribute(attr, path) : target.src = path` — the
shared write step of `#renderImage` and `#renderVideo` (`attr` is tested
for truthiness, so an empty-string attribute name falls back to `src`). -/
def writeTo (d : DOM) (t : Nat) (atr : Option String) (path : String) : DOM :=
  match truthyStr atr with
  | some a => setAttrD d t a path
  | none => setSrcD d t path

/-- `observer.observe(elem)`: a no-op when the element is already
observed. -/
def obsInsert (o : List Nat) (e : Nat) : List Nat :=
  if e ∈ o then o else e :: o

/-- `elements.forEach(elem => observer.observe(elem))`. -/
def observeAll (o : List Nat) (es : List Nat) : List Nat :=
  es.foldl obsInsert o

/-- The observed set of the current observer (empty when `#observer` is
null). -/
def observedOf (w : World) : List Nat :=
  match w.observer with
  | some ob => ob.observed
  | none => []

/-- The validation and construction of `#options` performed by
`config({root = null, loadBefore = 0, loadAfter = 0} = {})`
(src/lazyload.js lines 187-206): root must be null or a valid DOM element,
`loadBefore` a number `≥ 0`, `loadAfter` a number in `[0, 1]`. -/
def configOpts (root0 loadBefore0 loadAfter0 : JSValue) :
    Except LLError ObserverOptions :=
  let root := jsDefault root0 .vnull
  let lb := jsDefault loadBefore0 (.vnum 0)
  let la := jsDefault loadAfter0 (.vnum 0)
  if !jsIsNull root && !checkValidDOMElement root then
    .error .configError
  else
    match lb with
    | .vnum b =>
      if b < 0 then .error .configError
      else
        match la with
        | .vnum a =>
          if a < 0 ∨ 1 < a then .error .configError
          else
            .ok { root := match root with | .velem n => some n | _ => none,
                  rootMargin := pxString b,
                  threshold := a }
        | _ => .error .configError
    | _ => .error .configError

/-- `config(...)` as a state transformer: on success the stored `#options`
is replaced, on failure the state is untouched and the error propagates. -/
def config (root loadBefore loadAfter : JSValue) (w : World) :
    World × Option LLError :=
  match configOpts root loadBefore loadAfter with
  | .error e => (w, some e)
  | .ok o => ({ w with options := o }, none)

/-- The guard `typeof selector !== "string" ||
this.#checkValidCSSSelector(selector) === false` shared by `loadImage`,
`loadVideo` and `executeFn`. -/
def selectorCheck (dom : DOM) (v : JSValue) : Except LLError String :=
  match strVal v with
  | some s =>
    if checkValidCSSSelector dom s then .ok s else .error .selectorError
  | none => .error .selectorError

/-- The `srcTarget` guard of `loadImage`/`loadVideo`: null passes through,
otherwise it must be a string resolving as a selector. -/
def srcTargetCheck (dom : DOM) (v : JSValue) : Except LLError (Option String) :=
  match v with
  | .vnull => .ok none
  | .vstr s =>
    if checkValidCSSSelector dom s then .ok (some s) else .error .selectorError
  | _ => .error .selectorError

/-- The `attr` guard of `loadImage`/`loadVideo`: null passes through,
otherwise it must be a string. -/
def attrCheck (v : JSValue) : Except LLError (Option String) :=
  match v with
  | .vnull => .ok none
  | .vstr s => .ok (some s)
  | _ => .error .typeError

/-- `if (root !== null || loadBefore !== 0 || loadAfter !== 0)
this.config({root, loadBefore, loadAfter})` — the implicit per-call
reconfiguration of the batch operations. -/
def reconfig (root lb la : JSValue) (w : World) : Except LLError World :=
  if !jsIsNull root || !jsEqZero lb || !jsEqZero la then
    match configOpts root lb la with
    | .error e => .error e
    | .ok o => .ok { w with options := o }
  else .ok w

/-- The payload-assignment loop of `loadImage`
(`for (let i = 0; i < images.length; i++) { if (typeof images[i] !==
'string') throw ...; else elements[i].dataset.imageUrl = images[i]; }`).
The loop is bounded by the length of `images`; indexing `elements` past its
end dereferences `undefined`. -/
def assignImages : DOM → List Nat → List JSValue → DOM × Option LLError
  | d, _, [] => (d, none)
  | d, es, img :: rest =>
    match strVal img with
    | none => (d, some .typeError)
    | some s =>
      match es with
      | [] => (d, some .nullDeref)
      | e :: es2 => assignImages (setImageUrlD d e s) es2 rest

/-- The payload-assignment loop of `loadVideo`, writing
`dataset.videoUrl`. -/
def assignVideos : DOM → List Nat → List JSValue → DOM × Option LLError
  | d, _, [] => (d, none)
  | d, es, vid :: rest =>
    match strVal vid with
    | none => (d, some .typeError)
    | some s =>
      match es with
      | [] => (d, some .nullDeref)
      | e :: es2 => assignVideos (setVideoUrlD d e s) es2 rest

/-- `loadImage({selector = null, srcTarget = null, attr = null,
images = [], root = null, loadBefore = 0, loadAfter = 0} = {})`
(src/lazyload.js lines 222-256). -/
def loadImage (selector0 srcTarget0 attr0 images0 root0 loadBefore0
    loadAfter0 : JSValue) (w : World) : World × Option LLError :=
  let selector := jsDefault selector0 .vnull
  let srcTarget := jsDefault srcTarget0 .vnull
  let atr := jsDefault attr0 .vnull
  let images := jsDefault images0 (.varr [])
  let root := jsDefault root0 .vnull
  let lb := jsDefault loadBefore0 (.vnum 0)
  let la := jsDefault loadAfter0 (.vnum 0)
  match selectorCheck w.dom selector with
  | .error e => (w, some e)
  | .ok sel =>
    match srcTargetCheck w.dom srcTarget with
    | .error e => (w, some e)
    | .ok stO =>
      match attrCheck atr with
      | .error e => (w, some e)
      | .ok atO =>
        match reconfig root lb la w with
        | .error e => (w, some e)
        | .ok w1 =>
          let w2 := { w1 with observer := some ⟨.image stO atO, []⟩ }
          let elements := w2.dom.queryAll sel
          match images with
          | .varr imgs =>
            if imgs.isEmpty then
              ({ w2 with
                 observer := some ⟨.image stO atO, observeAll [] elements⟩ },
               none)
            else
              match assignImages w2.dom elements imgs with
              | (d, some e) => ({ w2 with dom := d }, some e)
              | (d, none) =>
                ({ w2 with
                    dom := d,
                    observer :=
                      some ⟨.image stO atO, observeAll [] elements⟩ }, none)
          | _ => (w2, some .typeError)

/-- `loadVideo({selector = null, srcTarget = null, attr = null,
videos = [], root = null, loadBefore = 0, loadAfter = 0} = {})`
(src/lazyload.js lines 303-337). -/
def loadVideo (selector0 srcTarget0 attr0 videos0 root0 loadBefore0
    loadAfter0 : JSValue) (w : World) : World × Option LLError :=
  let selector := jsDefault selector0 .vnull
  let srcTarget := jsDefault srcTarget0 .vnull
  let atr := jsDefault attr0 .vnull
  let videos := jsDefault videos0 (.varr [])
  let root := jsDefault root0 .vnull
  let lb := jsDefault loadBefore0 (.vnum 0)
  let la := jsDefault loadAfter0 (.vnum 0)
  match selectorCheck w.dom selector with
  | .error e => (w, some e)
  | .ok sel =>
    match srcTargetCheck w.dom srcTarget with
    | .error e => (w, some e)
    | .ok stO =>
      match attrCheck atr with
      | .error e => (w, some e)
      | .ok atO =>
        match reconfig root lb la w with
        | .error e => (w, some e)
        | .ok w1 =>
          let w2 := { w1 with observer := some ⟨.video stO atO, []⟩ }
          let elements := w2.dom.queryAll sel
          match videos with
          | .varr vids =>
            if vids.isEmpty then
              ({ w2 with
                 observer := some ⟨.video stO atO, observeAll [] elements⟩ },
               none)
            else
              match assignVideos w2.dom elements vids with
              | (d, some e) => ({ w2 with dom := d }, some e)
              | (d, none) =>
                ({ w2 with
                    dom := d,
                    observer :=
                      some ⟨.video stO atO, observeAll [] elements⟩ }, none)
          | _ => (w2, some .typeError)

/-- `executeFn({selector = null, exeFn = null, root = null, loadBefore = 0,
loadAfter = 0} = {})` (src/lazyload.js lines 379-394): validates, installs
the function-execution observer, and observes the first match of the
selector (`document.querySelector`). -/
def executeFn (selector0 exeFn0 root0 loadBefore0 loadAfter0 : JSValue)
    (w : World) : World × Option LLError :=
  let selector := jsDefault selector0 .vnull
  let exeFn := jsDefault exeFn0 .vnull
  let root := jsDefault root0 .vnull
  let lb := jsDefault loadBefore0 (.vnum 0)
  let la := jsDefault loadAfter0 (.vnum 0)
  match selectorCheck w.dom selector with
  | .error e => (w, some e)
  | .ok sel =>
    if isFun exeFn = false then (w, some .typeError)
    else
      match reconfig root lb la w with
      | .error e => (w, some e)
      | .ok w1 =>
        let w2 := { w1 with observer := some ⟨.exec, []⟩ }
        match (w2.dom.queryAll sel).head? with
        | some el =>
          ({ w2 with observer := some ⟨.exec, observeAll [] [el]⟩ }, none)
        | none => (w2, some .nullDeref)

/-- `#renderImage(srcTarget, attr)` applied to one entry
(src/lazyload.js lines 268-287): on an intersecting entry, read
`dataset.imageUrl || null`; if truthy, write the path to the `srcTarget`
match inside the element (dereferencing null when there is none) or to the
element itself, to `attr` or to `src`; then `observer.unobserve(elem)`. -/
def renderImage (srcTarget atr : Option String) (en : Entry) (s : CBState) :
    CBState × Option LLError :=
  if en.isIntersecting then
    let elem := en.target
    match truthyStr ((s.dom.elems elem).imageUrl) with
    | some path =>
      match truthyStr srcTarget with
      | some st =>
        match s.dom.sub elem st with
        | none => (s, some .nullDeref)
        | some srcElem =>
          ({ s with
              dom := writeTo s.dom srcElem atr path,
              observed := s.observed.filter (fun x => x != elem) }, none)
      | none =>
        ({ s with
            dom := writeTo s.dom elem atr path,
            observed := s.observed.filter (fun x => x != elem) }, none)
    | none =>
      ({ s with observed := s.observed.filter (fun x => x != elem) }, none)
  else (s, none)

/-- `#renderVideo(srcTarget, attr)` applied to one entry
(src/lazyload.js lines 347-366): as `#renderImage` but reading
`dataset.videoUrl`. -/
def renderVideo (srcTarget atr : Option String) (en : Entry) (s : CBState) :
    CBState × Option LLError :=
  if en.isIntersecting then
    let elem := en.target
    match truthyStr ((s.dom.elems elem).videoUrl) with
    | some path =>
      match truthyStr srcTarget with
      | some st =>
        match s.dom.sub elem st with
        | none => (s, some .nullDeref)
        | some srcElem =>
          ({ s with
              dom := writeTo s.dom srcElem atr path,
              observed := s.observed.filter (fun x => x != elem) }, none)
      | none =>
        ({ s with
            dom := writeTo s.dom elem atr path,
            observed := s.observed.filter (fun x => x != elem) }, none)
    | none =>
      ({ s with observed := s.observed.filter (fun x => x != elem) }, none)
  else (s, none)

/-- `#handleFunctionExecution(exeFn)` applied to one entry
(src/lazyload.js lines 408-418): on an intersecting entry, call `exeFn()`
(counted) and `observer.unobserve(entry.target)`. -/
def handleFunctionExecution (en : Entry) (s : CBState) :
    CBState × Option LLError :=
  if en.isIntersecting then
    ({ s with
        fnCalls := s.fnCalls + 1,
        observed := s.observed.filter (fun x => x != en.target) }, none)
  else (s, none)

/-- Dispatch the installed callback on one entry. -/
def runCallback : CB → Entry → CBState → CBState × Option LLError
  | .image st a => renderImage st a
  | .video st a => renderVideo st a
  | .exec => handleFunctionExecution

/-- Delivery of one visibility transition by the IntersectionObserver
collaborator: an entry for an element is produced, and the installed
callback invoked on it, only while the element is in the observer's
observed set; otherwise nothing happens. -/
def deliverTransition (w : World) (e : Nat) (inter : Bool) :
    World × Option LLError :=
  match w.observer with
  | none => (w, none)
  | some ob =>
    if e ∈ ob.observed then
      let r := runCallback ob.cb ⟨e, inter⟩ ⟨w.dom, ob.observed, w.fnCalls⟩
      ({ w with
          dom := r.1.dom,
          observer := some ⟨ob.cb, r.1.observed⟩,
          fnCalls := r.1.fnCalls }, r.2)
    else (w, none)

/-- `destroy()` (src/lazyload.js lines 424-427): `this.config()` (reset to
defaults), then `this.#observer.disconnect()` — a null dereference when no
observer was ever created, and the release of every subscription
otherwise. -/
def destroy (w : World) : World × Option LLError :=
  match config .vundef .vundef .vundef w with
  | (w1, some e) => (w1, some e)
  | (w1, none) =>
    match w1.observer with
    | none => (w1, some .nullDeref)
    | some ob => ({ w1 with observer := some ⟨ob.cb, []⟩ }, none)

/-- The default `#options` installed by the constructor and by
`destroy()`. -/
def defaultOptions : ObserverOptions :=
  { root := none, rootMargin := "0px", threshold := 0 }

/-- The pending payload a reveal callback would read for an element: the
truthy value of the dataset slot the callback is keyed on. -/
def payloadOf : CB → DOM → Nat → Option String
  | .image _ _, d, e => truthyStr ((d.elems e).imageUrl)
  | .video _ _, d, e => truthyStr ((d.elems e).videoUrl)
  | .exec, _, _ => none

/-- The `loadAfter` values the claim classifies as rejected: any
explicitly passed non-number (an absent/undefined argument takes the
destructuring default `0` instead), and any number outside `[0, 1]`. -/
def badLoadAfter : JSValue → Bool
  | .vnum a => decide (a < 0 ∨ 1 < a)
  | .vundef => false
  | _ => true

/-- The `loadBefore` values the claim classifies as rejected: any
explicitly passed non-number, and any negative number. -/
def badLoadBefore : JSValue → Bool
  | .vnum b => decide (b < 0)
  | .vundef => false
  | _ => true

/-- Exchange the image and video dataset slots of one element. -/
def swapElem (x : Element) : Element :=
  { x with imageUrl := x.videoUrl, videoUrl := x.imageUrl }

/-- Exchange the image and video dataset slots throughout the store. -/
def swapDOM (d : DOM) : DOM :=
  { d with elems := fun n => swapElem (d.elems n) }

/-- Exchange the image-reveal and video-reveal callbacks. -/
def swapCB : CB → CB
  | .image st a => .video st a
  | .video st a => .image st a
  | .exec => .exec

/-- Exchange the two slot namespaces in the whole state. -/
def swapW (w : World) : World :=
  { w with
      dom := swapDOM w.dom,
      observer := w.observer.map fun ob => ⟨swapCB ob.cb, ob.observed⟩ }

/-- Exchange the two slot namespaces in a callback state. -/
def swapS (s : CBState) : CBState :=
  { s with dom := swapDOM s.dom }

/-- A concrete document for the concrete evaluations: "sel" resolves to
elements 0 and 1 (element 0 carrying a markup image payload), "st"
resolves to element 5, and no element has any descendant match. -/
def demoDOM : DOM where
  elems := fun n =>
    if n = 0 then ⟨some "a.jpg", some "a.mp4", none, []⟩
    else ⟨none, none, none, []⟩
  queryAll := fun s =>
    if s = "sel" then [0, 1] else if s = "st" then [5] else []
  sub := fun _ _ => none

/-- A fresh controller state over `demoDOM` (constructor defaults, no
observer yet). -/
def demoWorld : World := ⟨demoDOM, defaultOptions, none, 0⟩

/-- `demoWorld` after a batch operation installed an exec observer over
element 0. -/
def demoExecWorld : World :=
  ⟨demoDOM, defaultOptions, some ⟨.exec, [0]⟩, 0⟩

/-- `demoWorld` with an image observer over elements 0 and 1, element 1
carrying no payload. -/
def demoImageWorld : World :=
  ⟨demoDOM, defaultOptions, some ⟨.image none none, [1, 0]⟩, 0⟩

/-- State after subscribing "sel" for image reveal with no `srcTarget`. -/
def oneShotOkWorld : World :=
  (loadImage (.vstr "sel") .vnull .vnull (.varr []) .vnull (.vnum 0)
    (.vnum 0) demoWorld).1

/-- Batch setup with a `srcTarget` that is valid in the document but has no
match inside the subscribed elements. -/
def srcTargetMissSetup : World × Option LLError :=
  loadImage (.vstr "sel") (.vstr "st") .vnull (.varr []) .vnull (.vnum 0)
    (.vnum 0) demoWorld

/-- First visibility transition for element 0 after `srcTargetMissSetup`. -/
def srcTargetMissFirst : World × Option LLError :=
  deliverTransition srcTargetMissSetup.1 0 true

/-- Second visibility transition for element 0 after the first one. -/
def srcTargetMissSecond : World × Option LLError :=
  deliverTransition srcTargetMissFirst.1 0 true

/-- Batch setup whose second image entry is a number: the first entry is
assigned before the loop throws. -/
def badBatchResult : World × Option LLError :=
  loadImage (.vstr "sel") .vnull .vnull (.varr [.vstr "ok", .vnum 1])
    .vnull (.vnum 0) (.vnum 0) demoWorld

theorem mem_obsInsert {o : List Nat} {e a : Nat} :
    a ∈ obsInsert o e ↔ a ∈ o ∨ a = e := by
  unfold obsInsert
  split
  · rename_i h
    constructor
    · exact Or.inl
    · rintro (h2 | rfl)
      · exact h2
      · exact h
  · simp [or_comm]

theorem mem_observeAll (es : List Nat) :
    ∀ (o : List Nat) (b : Nat), b ∈ observeAll o es ↔ b ∈ o ∨ b ∈ es := by
  induction es with
  | nil => intro o b; simp [observeAll]
  | cons e es ih =>
    intro o b
    unfold observeAll at ih ⊢
    rw [List.foldl_cons, ih, mem_obsInsert]
    simp [List.mem_cons]
    tauto

theorem not_mem_filter_ne (l : List Nat) (e : Nat) :
    e ∉ l.filter (fun x => x != e) := by
  simp

theorem runCallback_true_ok (cb : CB) (e : Nat) (s : CBState)
    (hok : (runCallback cb ⟨e, true⟩ s).2 = none) :
    (runCallback cb ⟨e, true⟩ s).1.observed
      = s.observed.filter (fun x => x != e) := by
  cases cb with
  | exec => rfl
  | image st a =>
    cases h1 : truthyStr ((s.dom.elems e).imageUrl) with
    | none => simp [runCallback, renderImage, h1]
    | some p =>
      cases h2 : truthyStr st with
      | none => simp [runCallback, renderImage, h1, h2]
      | some stv =>
        cases h3 : s.dom.sub e stv with
        | none => simp [runCallback, renderImage, h1, h2, h3] at hok
        | some se => simp [runCallback, renderImage, h1, h2, h3]
  | video st a =>
    cases h1 : truthyStr ((s.dom.elems e).videoUrl) with
    | none => simp [runCallback, renderVideo, h1]
    | some p =>
      cases h2 : truthyStr st with
      | none => simp [runCallback, renderVideo, h1, h2]
      | some stv =>
        cases h3 : s.dom.sub e stv with
        | none => simp [runCallback, renderVideo, h1, h2, h3] at hok
        | some se => simp [runCallback, renderVideo, h1, h2, h3]

/-- C1 (amended): for any subscribed element, when a visibility transition
with isIntersecting true is processed and the reveal callback completes
without a runtime error, the element is unobserved, a second qualifying
transition for it is a complete no-op (never re-fires the action), and for
the function-execution batch the action did execute exactly once. -/
theorem reveal_oneShot_of_ok (w : World) (ob : Observer) (e : Nat)
    (hob : w.observer = some ob) (hmem : e ∈ ob.observed)
    (hok : (deliverTransition w e true).2 = none) :
    e ∉ observedOf (deliverTransition w e true).1
    ∧ deliverTransition (deliverTransition w e true).1 e true
        = ((deliverTransition w e true).1, none)
    ∧ (ob.cb = .exec →
        (deliverTransition w e true).1.fnCalls = w.fnCalls + 1) := by
  have hD : deliverTransition w e true
      = ({ w with
            dom := (runCallback ob.cb ⟨e, true⟩
              ⟨w.dom, ob.observed, w.fnCalls⟩).1.dom,
            observer := some ⟨ob.cb, (runCallback ob.cb ⟨e, true⟩
              ⟨w.dom, ob.observed, w.fnCalls⟩).1.observed⟩,
            fnCalls := (runCallback ob.cb ⟨e, true⟩
              ⟨w.dom, ob.observed, w.fnCalls⟩).1.fnCalls },
          (runCallback ob.cb ⟨e, true⟩ ⟨w.dom, ob.observed, w.fnCalls⟩).2)
      := by
    unfold deliverTransition
    rw [hob]
    simp [hmem]
  rw [hD] at hok ⊢
  have hfil := runCallback_true_ok ob.cb e ⟨w.dom, ob.observed, w.fnCalls⟩ hok
  refine ⟨?_, ?_, ?_⟩
  · simp only [observedOf]
    rw [hfil]
    exact not_mem_filter_ne _ _
  · unfold deliverTransition
    simp only []
    rw [hfil]
    rw [if_neg (not_mem_filter_ne ob.observed e)]
  · intro hcb
    rw [hcb]
    rfl

/-- C1 witness: a subscribed element of a concrete image batch is revealed
once and the second transition changes nothing. -/
theorem reveal_oneShot_of_ok_witness :
    0 ∉ observedOf (deliverTransition oneShotOkWorld 0 true).1
    ∧ deliverTransition (deliverTransition oneShotOkWorld 0 true).1 0 true
        = ((deliverTransition oneShotOkWorld 0 true).1, none) := by
  have h := reveal_oneShot_of_ok oneShotOkWorld ⟨.image none none, [1, 0]⟩ 0
    (by decide) (by decide) (by decide)
  exact ⟨h.1, h.2.1⟩

/-- C1 counterexample: with a `srcTarget` that misses inside the element,
the intersecting entry is processed but the write target dereference fails
before `unobserve`, the element stays subscribed, and a second qualifying
transition fires the action again — so the claim as stated is false. -/
theorem oneShot_counterexample :
    srcTargetMissSetup.2 = none
    ∧ observedOf srcTargetMissSetup.1 = [1, 0]
    ∧ srcTargetMissFirst.2 = some .nullDeref
    ∧ observedOf srcTargetMissFirst.1 = [1, 0]
    ∧ srcTargetMissSecond.2 = some .nullDeref := by
  refine ⟨?_, ?_, ?_, ?_, ?_⟩ <;> decide

theorem configOpts_undef :
    configOpts .vundef .vundef .vundef = .ok defaultOptions := by
  rfl

theorem configOpts_err_shape (root lb la : JSValue) :
    configOpts root lb la = .error .configError
    ∨ ∃ o, configOpts root lb la = .ok o := by
  simp only [configOpts]
  split
  · exact Or.inl rfl
  · split
    · split
      · exact Or.inl rfl
      · split
        · split
          · exact Or.inl rfl
          · exact Or.inr ⟨_, rfl⟩
        · exact Or.inl rfl
    · exact Or.inl rfl

theorem configOpts_ok_inv (root lb la : JSValue) (o : ObserverOptions)
    (h : configOpts root lb la = .ok o) :
    ∃ b a : ℚ, jsDefault lb (.vnum 0) = .vnum b
      ∧ jsDefault la (.vnum 0) = .vnum a
      ∧ 0 ≤ b ∧ 0 ≤ a ∧ a ≤ 1 := by
  simp only [configOpts] at h
  split at h
  · simp at h
  · split at h
    · rename_i b hlb
      split at h
      · simp at h
      · rename_i hb
        split at h
        · rename_i a hla
          split at h
          · simp at h
          · rename_i ha
            push_neg at ha
            exact ⟨b, a, hlb, hla, not_lt.mp hb, ha.1, ha.2⟩
        · simp at h
    · simp at h

/-- C2: any explicitly passed `loadAfter` that is not a number or lies
outside `[0, 1]` makes `config` fail with a ConfigError, and likewise any
`loadBefore` that is not a number or is negative; every `loadAfter` in
`[0, 1]` together with every `loadBefore ≥ 0` is accepted. -/
theorem config_validation :
    (∀ root lb la : JSValue, badLoadAfter la = true →
        configOpts root lb la = .error .configError)
    ∧ (∀ root lb la : JSValue, badLoadBefore lb = true →
        configOpts root lb la = .error .configError)
    ∧ (∀ b a : ℚ, 0 ≤ b → 0 ≤ a → a ≤ 1 →
        configOpts .vnull (.vnum b) (.vnum a)
          = .ok ⟨none, pxString b, a⟩) := by
  refine ⟨?_, ?_, ?_⟩
  · intro root lb la h
    rcases configOpts_err_shape root lb la with he | ⟨o, ho⟩
    · exact he
    · exfalso
      obtain ⟨b, a, hlb, hla, hb, ha0, ha1⟩ := configOpts_ok_inv root lb la o ho
      cases la <;> simp_all [badLoadAfter, jsDefault]
      rcases h with h2 | h2 <;> linarith
  · intro root lb la h
    rcases configOpts_err_shape root lb la with he | ⟨o, ho⟩
    · exact he
    · exfalso
      obtain ⟨b, a, hlb, hla, hb, ha0, ha1⟩ := configOpts_ok_inv root lb la o ho
      cases lb <;> simp_all [badLoadBefore, jsDefault]
      linarith
  · intro b a hb ha0 ha1
    simp only [configOpts, jsDefault, jsIsNull, Bool.not_true, Bool.false_and,
      Bool.false_eq_true, if_false]
    rw [if_neg (not_lt.mpr hb)]
    rw [if_neg (show ¬(a < 0 ∨ 1 < a) by rintro (hx | hx) <;> linarith)]

/-- C2 witness: a non-number and an out-of-range `loadAfter` are rejected,
a non-number and a negative `loadBefore` are rejected, and an in-range pair
is accepted. -/
theorem config_validation_witness :
    configOpts .vnull (.vnum 0) (.vstr "x") = .error .configError
    ∧ configOpts .vnull (.vnum 0) (.vnum 2) = .error .configError
    ∧ configOpts .vnull (.vstr "y") (.vnum 0) = .error .configError
    ∧ configOpts .vnull (.vnum (-1)) (.vnum 0) = .error .configError
    ∧ configOpts .vnull (.vnum 50) (.vnum 1) = .ok ⟨none, pxString 50, 1⟩ := by
  exact ⟨config_validation.1 _ _ _ (by decide),
    config_validation.1 _ _ _ (by decide),
    config_validation.2.1 _ _ _ (by decide),
    config_validation.2.1 _ _ _ (by decide),
    config_validation.2.2 50 1 (by norm_num) (by norm_num) (by norm_num)⟩

/-- C6: a selector string that resolves to zero elements in the current
document reports false from the validity check, and `loadImage`,
`loadVideo` and `executeFn` all raise a SelectorError leaving the state
untouched, rather than treating the call as a no-op batch. -/
theorem selector_zero_matches_errors (w : World) (sel : String)
    (s1 a0 arr r b f ex : JSValue)
    (h : w.dom.queryAll sel = []) :
    checkValidCSSSelector w.dom sel = false
    ∧ loadImage (.vstr sel) s1 a0 arr r b f w = (w, some .selectorError)
    ∧ loadVideo (.vstr sel) s1 a0 arr r b f w = (w, some .selectorError)
    ∧ executeFn (.vstr sel) ex r b f w = (w, some .selectorError) := by
  have hv : checkValidCSSSelector w.dom sel = false := by
    simp [checkValidCSSSelector, h]
  refine ⟨hv, ?_, ?_, ?_⟩
  · simp [loadImage, selectorCheck, jsDefault, strVal, hv]
  · simp [loadVideo, selectorCheck, jsDefault, strVal, hv]
  · simp [executeFn, selectorCheck, jsDefault, strVal, hv]

/-- C6 witness: on a document where no selector matches, all three batch
operations fail with a SelectorError. -/
theorem selector_zero_matches_errors_witness :
    checkValidCSSSelector demoDOM "nope" = false
    ∧ loadImage (.vstr "nope") .vnull .vnull (.varr []) .vnull (.vnum 0)
        (.vnum 0) demoWorld = (demoWorld, some .selectorError)
    ∧ loadVideo (.vstr "nope") .vnull .vnull (.varr []) .vnull (.vnum 0)
        (.vnum 0) demoWorld = (demoWorld, some .selectorError)
    ∧ executeFn (.vstr "nope") .vfun .vnull (.vnum 0) (.vnum 0) demoWorld
        = (demoWorld, some .selectorError) := by
  exact selector_zero_matches_errors demoWorld "nope" .vnull .vnull
    (.varr []) .vnull (.vnum 0) (.vnum 0) .vfun (by decide)

/-- C7: `destroy()` resets the stored configuration to the defaults
(root null, margin "0px", threshold 0) and disconnects the current
observation set, releasing every subscription; called with no observation
set ever created it fails with a null-dereference-class error. -/
theorem destroy_resets (w : World) :
    (w.observer = none →
      destroy w = ({ w with options := defaultOptions }, some .nullDeref))
    ∧ (∀ ob : Observer, w.observer = some ob →
      destroy w
        = ({ w with
              options := defaultOptions,
              observer := some ⟨ob.cb, []⟩ }, none)) := by
  have hc : config .vundef .vundef .vundef w
      = ({ w with options := defaultOptions }, none) := by
    unfold config
    rw [configOpts_undef]
  constructor
  · intro h
    unfold destroy
    rw [hc]
    simp [h]
  · intro ob h
    unfold destroy
    rw [hc]
    simp [h]

/-- C7 witness: destroying a state with an active observer resets the
configuration and empties the observed set; destroying a fresh state with
no observer fails with a null dereference. -/
theorem destroy_resets_witness :
    destroy demoImageWorld
      = ({ demoImageWorld with
            options := defaultOptions,
            observer := some ⟨.image none none, []⟩ }, none)
    ∧ destroy demoWorld
      = ({ demoWorld with options := defaultOptions }, some .nullDeref) := by
  exact ⟨(destroy_resets demoImageWorld).2 ⟨.image none none, [1, 0]⟩ rfl,
    (destroy_resets demoWorld).1 rfl⟩

theorem assignImages_bad (pre : List JSValue) :
    ∀ (es : List Nat) (d : DOM) (bad : JSValue) (rest : List JSValue),
      (∀ x ∈ pre, (strVal x).isSome) → strVal bad = none →
      pre.length ≤ es.length →
      (assignImages d es (pre ++ bad :: rest)).2 = some .typeError := by
  induction pre with
  | nil =>
    intro es d bad rest _ hbad _
    simp [assignImages, hbad]
  | cons x pre ih =>
    intro es d bad rest hstr hbad hlen
    obtain ⟨s, hs⟩ := Option.isSome_iff_exists.mp (hstr x (by simp))
    cases es with
    | nil => simp at hlen
    | cons e es2 =>
      simp only [List.cons_append, assignImages, hs]
      exact ih es2 _ bad rest (fun y hy => hstr y (by simp [hy])) hbad
        (by simpa using hlen)

theorem assignImages_overflow (imgs : List JSValue) :
    ∀ (es : List Nat) (d : DOM),
      (∀ x ∈ imgs, (strVal x).isSome) → es.length < imgs.length →
      (assignImages d es imgs).2 = some .nullDeref := by
  induction imgs with
  | nil =>
    intro es d _ hlen
    simp at hlen
  | cons x rest ih =>
    intro es d hstr hlen
    obtain ⟨s, hs⟩ := Option.isSome_iff_exists.mp (hstr x (by simp))
    cases es with
    | nil => simp [assignImages, hs]
    | cons e es2 =>
      simp only [assignImages, hs]
      exact ih es2 _ (fun y hy => hstr y (by simp [hy])) (by simpa using hlen)

theorem assignImages_ok (imgs : List JSValue) :
    ∀ (es : List Nat) (d : DOM),
      (∀ x ∈ imgs, (strVal x).isSome) → imgs.length ≤ es.length →
      (assignImages d es imgs).2 = none
      ∧ (∀ n, n ∉ es.take imgs.length →
          (assignImages d es imgs).1.elems n = d.elems n)
      ∧ (es.Nodup → ∀ i, i < imgs.length →
          (assignImages d es imgs).1.elems (es.getD i 0)
            = { d.elems (es.getD i 0) with
                imageUrl := strVal (imgs.getD i .vnull) }) := by
  induction imgs with
  | nil =>
    intro es d _ _
    refine ⟨?_, fun n _ => ?_, fun _ i hi => absurd hi (by simp)⟩ <;>
      simp [assignImages]
  | cons x rest ih =>
    intro es d hstr hlen
    obtain ⟨s, hs⟩ := Option.isSome_iff_exists.mp (hstr x (by simp))
    cases es with
    | nil => simp at hlen
    | cons e es2 =>
      have hstr2 : ∀ y ∈ rest, (strVal y).isSome :=
        fun y hy => hstr y (by simp [hy])
      have hlen2 : rest.length ≤ es2.length := by simpa using hlen
      obtain ⟨h1, h2, h3⟩ := ih es2 (setImageUrlD d e s) hstr2 hlen2
      refine ⟨?_, ?_, ?_⟩
      · simp only [assignImages, hs]
        exact h1
      · intro n hn
        have hne : n ≠ e := by
          intro hh
          exact hn (by simp [hh, List.take_cons])
        have hnt : n ∉ es2.take rest.length := by
          intro hh
          exact hn (by simp [List.take_cons, hh])
        simp only [assignImages, hs]
        rw [h2 n hnt]
        simp [setImageUrlD, updElem, hne]
      · intro hnd i hi
        have hnd2 : es2.Nodup := (List.nodup_cons.mp hnd).2
        have hee : e ∉ es2 := (List.nodup_cons.mp hnd).1
        cases i with
        | zero =>
          have hta : e ∉ es2.take rest.length :=
            fun hh => hee (List.take_subset _ _ hh)
          simp only [assignImages, hs, List.getD_cons_zero]
          rw [h2 e hta]
          simp [setImageUrlD, updElem, hs]
        | succ i =>
          have hi2 : i < rest.length := by simpa using hi
          have hilen : i < es2.length := lt_of_lt_of_le hi2 hlen2
          have hm : es2.getD i 0 ∈ es2 := by
            rw [List.getD_eq_getElem?_getD, List.getElem?_eq_getElem hilen]
            exact List.getElem_mem hilen
          have hne : es2.getD i 0 ≠ e := fun hh => hee (hh ▸ hm)
          simp only [assignImages, hs, List.getD_cons_succ]
          rw [h3 hnd2 i hi2]
          have hrw : (setImageUrlD d e s).elems (es2.getD i 0)
              = d.elems (es2.getD i 0) := by
            simp only [setImageUrlD, updElem]
            rw [if_neg hne]
          rw [hrw]

theorem jsEqZero_zero : jsEqZero (.vnum 0) = true := rfl

theorem loadImage_defaults (w : World) (sel : String) (imgs : List JSValue)
    (hv : checkValidCSSSelector w.dom sel = true) :
    loadImage (.vstr sel) .vnull .vnull (.varr imgs) .vnull (.vnum 0)
        (.vnum 0) w
      = if imgs.isEmpty then
          ({ w with
              observer := some ⟨.image none none,
                observeAll [] (w.dom.queryAll sel)⟩ }, none)
        else
          match assignImages w.dom (w.dom.queryAll sel) imgs with
          | (d, some e) =>
            ({ w with
                dom := d,
                observer := some ⟨.image none none, []⟩ }, some e)
          | (d, none) =>
            ({ w with
                dom := d,
                observer := some ⟨.image none none,
                  observeAll [] (w.dom.queryAll sel)⟩ }, none) := by
  simp only [loadImage, jsDefault, selectorCheck, strVal, hv, srcTargetCheck,
    attrCheck, reconfig, jsIsNull, jsEqZero_zero, Bool.not_true, Bool.or_self,
    Bool.false_or, Bool.or_false, Bool.false_eq_true, if_true, ite_true,
    if_false, ite_false]

theorem swapS_swapS (s : CBState) : swapS (swapS s) = s := rfl

theorem swapW_swapW (w : World) : swapW (swapW w) = w := by
  cases w with
  | mk dom opts obs fn =>
    cases obs with
    | none => rfl
    | some ob =>
      cases ob with
      | mk cb observed => cases cb <;> rfl

theorem observedOf_swapW (w : World) : observedOf (swapW w) = observedOf w := by
  cases w with
  | mk dom opts obs fn => cases obs <;> rfl

theorem swapDOM_setImageUrlD (d : DOM) (e : Nat) (s : String) :
    swapDOM (setImageUrlD d e s) = setVideoUrlD (swapDOM d) e s := by
  simp only [setImageUrlD, setVideoUrlD, updElem, swapDOM]
  congr 1
  funext n
  by_cases h : n = e <;> simp [h, swapElem]

theorem swapDOM_setVideoUrlD (d : DOM) (e : Nat) (s : String) :
    swapDOM (setVideoUrlD d e s) = setImageUrlD (swapDOM d) e s := by
  simp only [setImageUrlD, setVideoUrlD, updElem, swapDOM]
  congr 1
  funext n
  by_cases h : n = e <;> simp [h, swapElem]

theorem swapDOM_setSrcD (d : DOM) (e : Nat) (v : String) :
    setSrcD (swapDOM d) e v = swapDOM (setSrcD d e v) := by
  simp only [setSrcD, updElem, swapDOM]
  congr 1
  funext n
  by_cases h : n = e <;> simp [h, swapElem]

theorem swapDOM_setAttrD (d : DOM) (e : Nat) (a v : String) :
    setAttrD (swapDOM d) e a v = swapDOM (setAttrD d e a v) := by
  simp only [setAttrD, updElem, swapDOM]
  congr 1
  funext n
  by_cases h : n = e <;> simp [h, swapElem]

theorem swapDOM_writeTo (d : DOM) (t : Nat) (atr : Option String)
    (path : String) :
    writeTo (swapDOM d) t atr path = swapDOM (writeTo d t atr path) := by
  unfold writeTo
  cases h : truthyStr atr <;>
    simp [h, swapDOM_setSrcD, swapDOM_setAttrD]

theorem renderImage_true_eq (st atr : Option String) (t : Nat) (s : CBState) :
    renderImage st atr ⟨t, true⟩ s
      = match truthyStr ((s.dom.elems t).imageUrl) with
        | some path =>
          match truthyStr st with
          | some stv =>
            match s.dom.sub t stv with
            | none => (s, some .nullDeref)
            | some se =>
              ({ s with
                  dom := writeTo s.dom se atr path,
                  observed := s.observed.filter (fun x => x != t) }, none)
          | none =>
            ({ s with
                dom := writeTo s.dom t atr path,
                observed := s.observed.filter (fun x => x != t) }, none)
        | none =>
          ({ s with observed := s.observed.filter (fun x => x != t) },
            none) := rfl

theorem renderVideo_true_eq (st atr : Option String) (t : Nat) (s : CBState) :
    renderVideo st atr ⟨t, true⟩ s
      = match truthyStr ((s.dom.elems t).videoUrl) with
        | some path =>
          match truthyStr st with
          | some stv =>
            match s.dom.sub t stv with
            | none => (s, some .nullDeref)
            | some se =>
              ({ s with
                  dom := writeTo s.dom se atr path,
                  observed := s.observed.filter (fun x => x != t) }, none)
          | none =>
            ({ s with
                dom := writeTo s.dom t atr path,
                observed := s.observed.filter (fun x => x != t) }, none)
        | none =>
          ({ s with observed := s.observed.filter (fun x => x != t) },
            none) := rfl

theorem renderVideo_swap (st atr : Option String) (en : Entry) (s : CBState) :
    renderVideo st atr en (swapS s)
      = (swapS (renderImage st atr en s).1, (renderImage st atr en s).2) := by
  rcases en with ⟨t, inter⟩
  cases inter
  · rfl
  · rw [renderVideo_true_eq, renderImage_true_eq]
    rw [show ((swapS s).dom.elems t).videoUrl = (s.dom.elems t).imageUrl
      from rfl]
    cases h1 : truthyStr ((s.dom.elems t).imageUrl) with
    | none => rfl
    | some p =>
      dsimp only
      cases h2 : truthyStr st with
      | none =>
        dsimp only
        rw [show (swapS s).dom = swapDOM s.dom from rfl, swapDOM_writeTo]
        rfl
      | some stv =>
        dsimp only
        rw [show (swapS s).dom.sub t stv = s.dom.sub t stv from rfl]
        cases h3 : s.dom.sub t stv with
        | none => rfl
        | some se =>
          dsimp only
          rw [show (swapS s).dom = swapDOM s.dom from rfl, swapDOM_writeTo]
          rfl

theorem runCallback_swap (cb : CB) (en : Entry) (s : CBState) :
    runCallback (swapCB cb) en (swapS s)
      = (swapS (runCallback cb en s).1, (runCallback cb en s).2) := by
  cases cb with
  | image st a => exact renderVideo_swap st a en s
  | video st a =>
    have h := renderVideo_swap st a en (swapS s)
    rw [swapS_swapS] at h
    show renderImage st a en (swapS s)
      = (swapS (renderVideo st a en s).1, (renderVideo st a en s).2)
    rw [h, swapS_swapS]
  | exec =>
    rcases en with ⟨t, inter⟩
    cases inter <;> rfl

theorem reconfig_swapW (r b f : JSValue) (w : World) :
    reconfig r b f (swapW w) = Except.map swapW (reconfig r b f w) := by
  unfold reconfig
  split
  · cases h : configOpts r b f with
    | error e => simp [h, Except.map]
    | ok o => simp [h, Except.map]; rfl
  · simp [Except.map]

theorem selectorCheck_swapDOM (d : DOM) (v : JSValue) :
    selectorCheck (swapDOM d) v = selectorCheck d v := rfl

theorem srcTargetCheck_swapDOM (d : DOM) (v : JSValue) :
    srcTargetCheck (swapDOM d) v = srcTargetCheck d v := rfl

theorem swapDOM_swapDOM (d : DOM) : swapDOM (swapDOM d) = d := rfl

theorem assignVideos_swap (vids : List JSValue) :
    ∀ (es : List Nat) (d : DOM),
      assignVideos d es vids
        = (swapDOM (assignImages (swapDOM d) es vids).1,
           (assignImages (swapDOM d) es vids).2) := by
  induction vids with
  | nil => intro es d; simp [assignImages, assignVideos, swapDOM_swapDOM]
  | cons x rest ih =>
    intro es d
    cases hx : strVal x with
    | none => simp [assignImages, assignVideos, hx, swapDOM_swapDOM]
    | some s =>
      cases es with
      | nil => simp [assignImages, assignVideos, hx, swapDOM_swapDOM]
      | cons e es2 =>
        simp only [assignImages, assignVideos, hx]
        rw [ih es2 (setVideoUrlD d e s), swapDOM_setVideoUrlD]

theorem swapDOM_queryAll (d : DOM) : (swapDOM d).queryAll = d.queryAll := rfl

theorem loadVideo_swap (s0 s1 a0 v0 r0 b0 f0 : JSValue) (w : World) :
    loadVideo s0 s1 a0 v0 r0 b0 f0 w
      = (swapW (loadImage s0 s1 a0 v0 r0 b0 f0 (swapW w)).1,
         (loadImage s0 s1 a0 v0 r0 b0 f0 (swapW w)).2) := by
  unfold loadVideo loadImage
  dsimp only
  rw [show (swapW w).dom = swapDOM w.dom from rfl]
  rw [selectorCheck_swapDOM]
  cases hsel : selectorCheck w.dom (jsDefault s0 .vnull) with
  | error e => rw [swapW_swapW]
  | ok sel =>
    dsimp only
    rw [srcTargetCheck_swapDOM]
    cases hst : srcTargetCheck w.dom (jsDefault s1 .vnull) with
    | error e => rw [swapW_swapW]
    | ok stO =>
      dsimp only
      cases hat : attrCheck (jsDefault a0 .vnull) with
      | error e => rw [swapW_swapW]
      | ok atO =>
        dsimp only
        rw [reconfig_swapW]
        cases hrc : reconfig (jsDefault r0 .vnull) (jsDefault b0 (.vnum 0))
            (jsDefault f0 (.vnum 0)) w with
        | error e =>
          dsimp only [Except.map]
          rw [swapW_swapW]
        | ok w1 =>
          dsimp only [Except.map]
          cases hv0 : jsDefault v0 (.varr [])
          case varr vids =>
            dsimp only
            rw [show (swapW w1).dom = swapDOM w1.dom from rfl]
            rw [swapDOM_queryAll]
            cases he : vids.isEmpty
            · rw [assignVideos_swap vids]
              rcases hass : assignImages (swapDOM w1.dom)
                  (w1.dom.queryAll sel) vids with ⟨dR, err⟩
              cases err <;> rfl
            · rfl
          all_goals rfl

/-- C8: on every input, `loadVideo` behaves identically to `loadImage` —
same selector, srcTarget, attr, array and reconfiguration validation, same
payload-assignment and fallback rules, and the same reveal semantics —
except that it reads and writes the pending-video-path slot instead of the
pending-image-path slot: both the batch setup and the reveal callback are
exactly the image versions conjugated by the slot swap. -/
theorem loadVideo_refines_loadImage :
    (∀ (s0 s1 a0 v0 r0 b0 f0 : JSValue) (w : World),
      loadVideo s0 s1 a0 v0 r0 b0 f0 w
        = (swapW (loadImage s0 s1 a0 v0 r0 b0 f0 (swapW w)).1,
           (loadImage s0 s1 a0 v0 r0 b0 f0 (swapW w)).2))
    ∧ (∀ (st a : Option String) (en : Entry) (s : CBState),
      renderVideo st a en s
        = (swapS (renderImage st a en (swapS s)).1,
           (renderImage st a en (swapS s)).2)) := by
  constructor
  · exact loadVideo_swap
  · intro st a en s
    have h := renderVideo_swap st a en (swapS s)
    rw [swapS_swapS] at h
    exact h

/-- C9: when every array entry is a string but the array outnumbers the
resolved elements, the assignment loop of `loadImage` (resp. `loadVideo`)
indexes past the end of the element sequence and the call fails with a
null-dereference-class error before any element is subscribed. -/
theorem payload_overflow_nullDeref (w : World) (sel : String)
    (imgs : List JSValue)
    (hv : checkValidCSSSelector w.dom sel = true)
    (hstr : ∀ x ∈ imgs, (strVal x).isSome)
    (hlen : (w.dom.queryAll sel).length < imgs.length) :
    (loadImage (.vstr sel) .vnull .vnull (.varr imgs) .vnull (.vnum 0)
        (.vnum 0) w).2 = some .nullDeref
    ∧ observedOf (loadImage (.vstr sel) .vnull .vnull (.varr imgs) .vnull
        (.vnum 0) (.vnum 0) w).1 = []
    ∧ (loadVideo (.vstr sel) .vnull .vnull (.varr imgs) .vnull (.vnum 0)
        (.vnum 0) w).2 = some .nullDeref
    ∧ observedOf (loadVideo (.vstr sel) .vnull .vnull (.varr imgs) .vnull
        (.vnum 0) (.vnum 0) w).1 = [] := by
  have himg : ∀ w2 : World, checkValidCSSSelector w2.dom sel = true →
      (w2.dom.queryAll sel).length < imgs.length →
      (loadImage (.vstr sel) .vnull .vnull (.varr imgs) .vnull (.vnum 0)
          (.vnum 0) w2).2 = some .nullDeref
      ∧ observedOf (loadImage (.vstr sel) .vnull .vnull (.varr imgs) .vnull
          (.vnum 0) (.vnum 0) w2).1 = [] := by
    intro w2 hv2 hlen2
    rw [loadImage_defaults w2 sel imgs hv2]
    have hne : imgs.isEmpty = false := by
      cases imgs with
      | nil => simp at hlen2
      | cons _ _ => rfl
    rw [if_neg (by simp [hne])]
    have herr := assignImages_overflow imgs (w2.dom.queryAll sel) w2.dom
      hstr hlen2
    rcases hass : assignImages w2.dom (w2.dom.queryAll sel) imgs with ⟨d, err⟩
    rw [hass] at herr
    cases err with
    | none => simp at herr
    | some e2 =>
      have he2 : e2 = .nullDeref := by simpa using herr
      subst he2
      exact ⟨rfl, rfl⟩
  refine ⟨(himg w hv hlen).1, (himg w hv hlen).2, ?_, ?_⟩
  · rw [loadVideo_swap]
    exact (himg (swapW w) hv hlen).1
  · rw [loadVideo_swap]
    show observedOf (swapW (loadImage (.vstr sel) .vnull .vnull (.varr imgs)
      .vnull (.vnum 0) (.vnum 0) (swapW w)).1) = []
    rw [observedOf_swapW]
    exact (himg (swapW w) hv hlen).2

/-- C9 witness: three string paths against two resolved elements fail with
a null dereference and no subscription, for images and videos alike. -/
theorem payload_overflow_nullDeref_witness :
    (loadImage (.vstr "sel") .vnull .vnull
        (.varr [.vstr "a", .vstr "b", .vstr "c"]) .vnull (.vnum 0)
        (.vnum 0) demoWorld).2 = some .nullDeref
    ∧ observedOf (loadImage (.vstr "sel") .vnull .vnull
        (.varr [.vstr "a", .vstr "b", .vstr "c"]) .vnull (.vnum 0)
        (.vnum 0) demoWorld).1 = []
    ∧ (loadVideo (.vstr "sel") .vnull .vnull
        (.varr [.vstr "a", .vstr "b", .vstr "c"]) .vnull (.vnum 0)
        (.vnum 0) demoWorld).2 = some .nullDeref
    ∧ observedOf (loadVideo (.vstr "sel") .vnull .vnull
        (.varr [.vstr "a", .vstr "b", .vstr "c"]) .vnull (.vnum 0)
        (.vnum 0) demoWorld).1 = [] := by
  exact payload_overflow_nullDeref demoWorld "sel"
    [.vstr "a", .vstr "b", .vstr "c"] (by decide) (by decide) (by decide)

/-- C3 (amended): when the array handed to `loadImage` (resp. `loadVideo`)
contains a non-string entry, and that first non-string entry occurs at an
index not beyond the number of resolved elements, a TypeError is raised
synchronously before any element is subscribed to observation; elements at
indices before the non-string entry may already have had their pending
payload assigned. -/
theorem typeInvalid_fails_before_subscribe (w : World) (sel : String)
    (pre : List JSValue) (bad : JSValue) (rest : List JSValue)
    (hv : checkValidCSSSelector w.dom sel = true)
    (hpre : ∀ x ∈ pre, (strVal x).isSome)
    (hbad : strVal bad = none)
    (hlen : pre.length ≤ (w.dom.queryAll sel).length) :
    (loadImage (.vstr sel) .vnull .vnull (.varr (pre ++ bad :: rest)) .vnull
        (.vnum 0) (.vnum 0) w).2 = some .typeError
    ∧ observedOf (loadImage (.vstr sel) .vnull .vnull
        (.varr (pre ++ bad :: rest)) .vnull (.vnum 0) (.vnum 0) w).1 = []
    ∧ (loadVideo (.vstr sel) .vnull .vnull (.varr (pre ++ bad :: rest))
        .vnull (.vnum 0) (.vnum 0) w).2 = some .typeError
    ∧ observedOf (loadVideo (.vstr sel) .vnull .vnull
        (.varr (pre ++ bad :: rest)) .vnull (.vnum 0) (.vnum 0) w).1
        = [] := by
  have himg : ∀ w2 : World, checkValidCSSSelector w2.dom sel = true →
      pre.length ≤ (w2.dom.queryAll sel).length →
      (loadImage (.vstr sel) .vnull .vnull (.varr (pre ++ bad :: rest))
          .vnull (.vnum 0) (.vnum 0) w2).2 = some .typeError
      ∧ observedOf (loadImage (.vstr sel) .vnull .vnull
          (.varr (pre ++ bad :: rest)) .vnull (.vnum 0) (.vnum 0) w2).1
          = [] := by
    intro w2 hv2 hlen2
    rw [loadImage_defaults w2 sel _ hv2]
    rw [if_neg (by simp)]
    have herr := assignImages_bad pre (w2.dom.queryAll sel) w2.dom bad rest
      hpre hbad hlen2
    rcases hass : assignImages w2.dom (w2.dom.queryAll sel)
        (pre ++ bad :: rest) with ⟨d, err⟩
    rw [hass] at herr
    cases err with
    | none => simp at herr
    | some e2 =>
      have he2 : e2 = .typeError := by simpa using herr
      subst he2
      exact ⟨rfl, rfl⟩
  refine ⟨(himg w hv hlen).1, (himg w hv hlen).2, ?_, ?_⟩
  · rw [loadVideo_swap]
    exact (himg (swapW w) hv hlen).1
  · rw [loadVideo_swap]
    show observedOf (swapW (loadImage (.vstr sel) .vnull .vnull
      (.varr (pre ++ bad :: rest)) .vnull (.vnum 0) (.vnum 0)
      (swapW w)).1) = []
    rw [observedOf_swapW]
    exact (himg (swapW w) hv hlen).2

/-- C3 witness: a batch with entries ["ok", 1] against a valid selector
raises a TypeError with nothing subscribed. -/
theorem typeInvalid_fails_before_subscribe_witness :
    (loadImage (.vstr "sel") .vnull .vnull (.varr [.vstr "ok", .vnum 1])
        .vnull (.vnum 0) (.vnum 0) demoWorld).2 = some .typeError
    ∧ observedOf (loadImage (.vstr "sel") .vnull .vnull
        (.varr [.vstr "ok", .vnum 1]) .vnull (.vnum 0) (.vnum 0)
        demoWorld).1 = []
    ∧ (loadVideo (.vstr "sel") .vnull .vnull (.varr [.vstr "ok", .vnum 1])
        .vnull (.vnum 0) (.vnum 0) demoWorld).2 = some .typeError
    ∧ observedOf (loadVideo (.vstr "sel") .vnull .vnull
        (.varr [.vstr "ok", .vnum 1]) .vnull (.vnum 0) (.vnum 0)
        demoWorld).1 = [] := by
  exact typeInvalid_fails_before_subscribe demoWorld "sel" [.vstr "ok"]
    (.vnum 1) [] (by decide) (by decide) (by decide) (by decide)

/-- C3 counterexample: with images = ["ok", 1] against two resolved
elements, the TypeError is raised and nothing is subscribed, but element 0
has already been mutated (its pending payload changed from "a.jpg" to
"ok") — so the claim's "no element is mutated" conjunct is false. -/
theorem no_mutation_counterexample :
    badBatchResult.2 = some .typeError
    ∧ observedOf badBatchResult.1 = []
    ∧ (demoWorld.dom.elems 0).imageUrl = some "a.jpg"
    ∧ (badBatchResult.1.dom.elems 0).imageUrl = some "ok" := by
  refine ⟨?_, ?_, ?_, ?_⟩ <;> decide

/-- C5: when the images array is shorter than the resolved element
sequence, `loadImage` succeeds, every resolved element is subscribed, the
i-th image path is assigned as the i-th element's pending payload for the
indices both possess, and every element outside the assigned prefix is
left untouched, so its payload falls back to whatever pending-path data
attribute the markup already carries. -/
theorem partial_assignment_fallback (w : World) (sel : String)
    (imgs : List JSValue)
    (hv : checkValidCSSSelector w.dom sel = true)
    (hstr : ∀ x ∈ imgs, (strVal x).isSome)
    (hne : imgs ≠ [])
    (hlen : imgs.length < (w.dom.queryAll sel).length)
    (hnd : (w.dom.queryAll sel).Nodup) :
    (loadImage (.vstr sel) .vnull .vnull (.varr imgs) .vnull (.vnum 0)
        (.vnum 0) w).2 = none
    ∧ (∀ b : Nat, b ∈ observedOf (loadImage (.vstr sel) .vnull .vnull
        (.varr imgs) .vnull (.vnum 0) (.vnum 0) w).1
        ↔ b ∈ w.dom.queryAll sel)
    ∧ (∀ i : Nat, i < imgs.length →
        ((loadImage (.vstr sel) .vnull .vnull (.varr imgs) .vnull (.vnum 0)
            (.vnum 0) w).1.dom.elems
            ((w.dom.queryAll sel).getD i 0)).imageUrl
          = strVal (imgs.getD i .vnull))
    ∧ (∀ n : Nat, n ∉ (w.dom.queryAll sel).take imgs.length →
        (loadImage (.vstr sel) .vnull .vnull (.varr imgs) .vnull (.vnum 0)
            (.vnum 0) w).1.dom.elems n = w.dom.elems n) := by
  rw [loadImage_defaults w sel imgs hv]
  have hie : imgs.isEmpty = false := by
    cases imgs with
    | nil => exact absurd rfl hne
    | cons _ _ => rfl
  rw [if_neg (by simp [hie])]
  obtain ⟨h1, h2, h3⟩ := assignImages_ok imgs (w.dom.queryAll sel) w.dom hstr
    (le_of_lt hlen)
  rcases hass : assignImages w.dom (w.dom.queryAll sel) imgs with ⟨d, err⟩
  rw [hass] at h1 h2 h3
  cases err with
  | some e2 => simp at h1
  | none =>
    refine ⟨rfl, ?_, ?_, ?_⟩
    · intro b
      show b ∈ observeAll [] (w.dom.queryAll sel) ↔ _
      rw [mem_observeAll]
      simp
    · intro i hi
      show (d.elems ((w.dom.queryAll sel).getD i 0)).imageUrl = _
      rw [h3 hnd i hi]
    · intro n hn
      show d.elems n = w.dom.elems n
      exact h2 n hn

/-- C5 witness: one path against two resolved elements succeeds, both
elements are subscribed, element 0 gets the path and element 1 is left
untouched. -/
theorem partial_assignment_fallback_witness :
    (loadImage (.vstr "sel") .vnull .vnull (.varr [.vstr "x"]) .vnull
        (.vnum 0) (.vnum 0) demoWorld).2 = none
    ∧ 0 ∈ observedOf (loadImage (.vstr "sel") .vnull .vnull
        (.varr [.vstr "x"]) .vnull (.vnum 0) (.vnum 0) demoWorld).1
    ∧ ((loadImage (.vstr "sel") .vnull .vnull (.varr [.vstr "x"]) .vnull
        (.vnum 0) (.vnum 0) demoWorld).1.dom.elems
        ((demoWorld.dom.queryAll "sel").getD 0 0)).imageUrl
        = strVal ([JSValue.vstr "x"].getD 0 .vnull)
    ∧ (loadImage (.vstr "sel") .vnull .vnull (.varr [.vstr "x"]) .vnull
        (.vnum 0) (.vnum 0) demoWorld).1.dom.elems 1
        = demoWorld.dom.elems 1 := by
  have h := partial_assignment_fallback demoWorld "sel" [.vstr "x"]
    (by decide) (by decide) (by simp) (by decide) (by decide)
  exact ⟨h.1, (h.2.1 0).mpr (by decide), h.2.2.1 0 (by decide),
    h.2.2.2 1 (by decide)⟩

/-- C4: `loadImage` with an empty images array assigns no payload at setup
(the document is unchanged), subscribes every resolved element, and on
reveal each element already carrying a pending-image-path data attribute
in markup gets that stored value written as its source and is
unobserved. -/
theorem empty_images_markup_fallback (w : World) (sel : String)
    (hv : checkValidCSSSelector w.dom sel = true) :
    (loadImage (.vstr sel) .vnull .vnull (.varr []) .vnull (.vnum 0)
        (.vnum 0) w).2 = none
    ∧ (loadImage (.vstr sel) .vnull .vnull (.varr []) .vnull (.vnum 0)
        (.vnum 0) w).1.dom = w.dom
    ∧ observedOf (loadImage (.vstr sel) .vnull .vnull (.varr []) .vnull
        (.vnum 0) (.vnum 0) w).1 = observeAll [] (w.dom.queryAll sel)
    ∧ (∀ (e : Nat) (p : String),
        e ∈ observedOf (loadImage (.vstr sel) .vnull .vnull (.varr [])
          .vnull (.vnum 0) (.vnum 0) w).1 →
        (w.dom.elems e).imageUrl = some p → p ≠ "" →
        (deliverTransition (loadImage (.vstr sel) .vnull .vnull (.varr [])
            .vnull (.vnum 0) (.vnum 0) w).1 e true).2 = none
        ∧ ((deliverTransition (loadImage (.vstr sel) .vnull .vnull
            (.varr []) .vnull (.vnum 0) (.vnum 0) w).1 e
            true).1.dom.elems e).src = some p
        ∧ e ∉ observedOf (deliverTransition (loadImage (.vstr sel) .vnull
            .vnull (.varr []) .vnull (.vnum 0) (.vnum 0) w).1 e true).1) := by
  rw [loadImage_defaults w sel [] hv]
  rw [if_pos (show (List.isEmpty ([] : List JSValue)) = true from rfl)]
  refine ⟨rfl, rfl, rfl, ?_⟩
  intro e p hmem hiu hnep
  have hmem2 : e ∈ observeAll [] (w.dom.queryAll sel) := hmem
  have hrender : runCallback (.image none none) ⟨e, true⟩
      ⟨w.dom, observeAll [] (w.dom.queryAll sel), w.fnCalls⟩
      = (⟨setSrcD w.dom e p,
          (observeAll [] (w.dom.queryAll sel)).filter (fun x => x != e),
          w.fnCalls⟩, none) := by
    show renderImage none none ⟨e, true⟩ _ = _
    rw [renderImage_true_eq]
    dsimp only
    rw [hiu]
    simp only [truthyStr, if_neg hnep]
    rfl
  have hD : deliverTransition ({ w with observer := some ⟨.image none none,
      observeAll [] (w.dom.queryAll sel)⟩ }) e true
      = ({ w with
            dom := setSrcD w.dom e p,
            observer := some ⟨.image none none,
              (observeAll [] (w.dom.queryAll sel)).filter
                (fun x => x != e)⟩ }, none) := by
    unfold deliverTransition
    dsimp only
    rw [if_pos hmem2, hrender]
  refine ⟨?_, ?_, ?_⟩
  · rw [hD]
  · rw [hD]
    show ((setSrcD w.dom e p).elems e).src = some p
    simp [setSrcD, updElem]
  · rw [hD]
    show e ∉ (observeAll [] (w.dom.queryAll sel)).filter (fun x => x != e)
    exact not_mem_filter_ne _ _

/-- C4 witness: with an empty images array over the demo document, the
call succeeds without touching the document, both matched elements are
subscribed, and revealing element 0 writes its markup-declared path to its
source and unobserves it. -/
theorem empty_images_markup_fallback_witness :
    (loadImage (.vstr "sel") .vnull .vnull (.varr []) .vnull (.vnum 0)
        (.vnum 0) demoWorld).2 = none
    ∧ (loadImage (.vstr "sel") .vnull .vnull (.varr []) .vnull (.vnum 0)
        (.vnum 0) demoWorld).1.dom = demoWorld.dom
    ∧ (deliverTransition (loadImage (.vstr "sel") .vnull .vnull (.varr [])
        .vnull (.vnum 0) (.vnum 0) demoWorld).1 0 true).2 = none
    ∧ ((deliverTransition (loadImage (.vstr "sel") .vnull .vnull (.varr [])
        .vnull (.vnum 0) (.vnum 0) demoWorld).1 0
        true).1.dom.elems 0).src = some "a.jpg"
    ∧ 0 ∉ observedOf (deliverTransition (loadImage (.vstr "sel") .vnull
        .vnull (.varr []) .vnull (.vnum 0) (.vnum 0) demoWorld).1 0
        true).1 := by
  have h := empty_images_markup_fallback demoWorld "sel" (by decide)
  have h4 := h.2.2.2 0 "a.jpg" (by decide) (by decide) (by decide)
  exact ⟨h.1, h.2.1, h4.1, h4.2.1, h4.2.2⟩

/-- C10: a visibility entry with isIntersecting true whose element carries
no pending payload (or carries the empty string, which the callback treats
as absent) still unobserves the element and leaves the document untouched;
the element can never be revealed later in that batch, even if a payload
is attached afterwards. -/
theorem absent_payload_unobserves (w : World) (ob : Observer) (e : Nat)
    (hob : w.observer = some ob) (hmem : e ∈ ob.observed)
    (hcb : ob.cb ≠ .exec)
    (hpay : payloadOf ob.cb w.dom e = none) :
    (deliverTransition w e true).2 = none
    ∧ (deliverTransition w e true).1.dom = w.dom
    ∧ e ∉ observedOf (deliverTransition w e true).1
    ∧ (∀ w2 : World, w2.observer = (deliverTransition w e true).1.observer →
        deliverTransition w2 e true = (w2, none)) := by
  obtain ⟨cb, obs⟩ := ob
  have hrun : runCallback cb ⟨e, true⟩ ⟨w.dom, obs, w.fnCalls⟩
      = (⟨w.dom, obs.filter (fun x => x != e), w.fnCalls⟩, none) := by
    cases cb with
    | exec => exact absurd rfl hcb
    | image st a =>
      show renderImage st a ⟨e, true⟩ _ = _
      rw [renderImage_true_eq]
      dsimp only
      dsimp only [payloadOf] at hpay
      rw [hpay]
    | video st a =>
      show renderVideo st a ⟨e, true⟩ _ = _
      rw [renderVideo_true_eq]
      dsimp only
      dsimp only [payloadOf] at hpay
      rw [hpay]
  have hD : deliverTransition w e true
      = ({ w with observer := some ⟨cb, obs.filter (fun x => x != e)⟩ },
         none) := by
    unfold deliverTransition
    rw [hob]
    dsimp only
    rw [if_pos hmem, hrun]
  refine ⟨?_, ?_, ?_, ?_⟩
  · rw [hD]
  · rw [hD]
  · rw [hD]
    show e ∉ obs.filter (fun x => x != e)
    exact not_mem_filter_ne _ _
  · intro w2 hw2
    rw [hD] at hw2
    unfold deliverTransition
    rw [hw2]
    dsimp only
    rw [if_neg (not_mem_filter_ne obs e)]

/-- C10 witness: element 1 of the demo image batch has no payload; the
intersecting entry still unobserves it and the document is unchanged. -/
theorem absent_payload_unobserves_witness :
    (deliverTransition demoImageWorld 1 true).2 = none
    ∧ (deliverTransition demoImageWorld 1 true).1.dom = demoImageWorld.dom
    ∧ 1 ∉ observedOf (deliverTransition demoImageWorld 1 true).1 := by
  have h := absent_payload_unobserves demoImageWorld
    ⟨.image none none, [1, 0]⟩ 1 rfl (by decide) (by decide) rfl
  exact ⟨h.1, h.2.1, h.2.2.1⟩

end LazyLoad
